import Mathlib

/-!
Verification of the `wikiparsercli` resolution pipeline
(src/wikiparsercli/wikiparsercli.py) against its specification.

The interesting logic lives in `main()`: it calls
`WikipediaSeries.search_by_name`, then `check_for_match_in_result` on the
whole result list; if that yields nothing it logs one `idx:title` line per
candidate, reads `int(input(...))`, indexes `results[user_choice]` with
Python list-index semantics, re-runs `check_for_match_in_result` on the
singleton, and finally drives the parse/persist pipeline with
`miniseries = (found_match.query_type == 'miniseries')`.

The external library `wikiparserlib.WikipediaSeries` is a black-box
collaborator, so `search_by_name` and `check_for_match_in_result` are
parameters of the model.  Python-level failure modes that the script does
not catch are made explicit as `RunError` values:
  * `valueError`     - `int(input(...))` on a non-integer string,
  * `indexError`     - `results[user_choice]` out of range,
  * `attributeError` - `found_match.url` when `found_match` is `None`
                       (the singleton re-check returned nothing).
-/

/-- One candidate wiki article, as produced by the search backend.
Fields mirror the attributes `main()` reads: `title`, `url`, `query_type`. -/
structure SearchResult where
  title : String
  url : String
  query_type : String
deriving Repr, DecidableEq

/-- Uncaught Python exceptions that `main()` can die with during resolution. -/
inductive RunError
  | valueError
  | indexError
  | attributeError
deriving Repr, DecidableEq

/-- Calls `main()` makes into the parse/persist boundary, in order. -/
inductive PipelineCall
  | get_soup_by_url (url : String)
  | parse_series_title_and_type (m : SearchResult)
  | parse_seasons_and_episodes_from_soup (miniseries : Bool)
  | write_to_file_system
deriving Repr, DecidableEq

/-- Observable outcome of one run of the resolution body of `main()`. -/
structure RunResult where
  /-- The `idx:title` lines logged by the `for idx, search_result in
  enumerate(results)` loop (empty when the automatic path succeeds). -/
  candidateLines : List String
  /-- How many times `input(...)` was called (0 or 1 in this program). -/
  promptCount : Nat
  /-- The `found_match` value reaching the pipeline, when one does. -/
  found : Option SearchResult
  /-- Calls made into the parse/persist boundary. -/
  pipelineCalls : List PipelineCall
  /-- The uncaught exception the run dies with, if any. -/
  err : Option RunError
deriving Repr, DecidableEq

/-- The whitespace characters Python strips around the argument of `int`. -/
def isPySpace (c : Char) : Bool :=
  c = ' ' ∨ c = '\t' ∨ c = '\n' ∨ c = '\r' ∨ c = '\x0b' ∨ c = '\x0c'

/-- Strip leading and trailing whitespace from a character list. -/
def stripSpace (cs : List Char) : List Char :=
  ((cs.dropWhile isPySpace).reverse.dropWhile isPySpace).reverse

/-- Python `int(s)` on a decimal string: surrounding whitespace is stripped,
an optional single `+`/`-` sign is allowed, and the rest must be one or more
ASCII digits; anything else raises `ValueError` (modelled as `none`).
(Underscore digit grouping accepted by CPython is not modelled; no claim
depends on it.) -/
def pyInt (s : String) : Option Int :=
  let cs := stripSpace s.toList
  match cs with
  | [] => none
  | '+' :: rest =>
      if rest ≠ [] ∧ rest.all Char.isDigit then
        some (Int.ofNat (rest.foldl (fun a c => 10 * a + (c.toNat - '0'.toNat)) 0))
      else none
  | '-' :: rest =>
      if rest ≠ [] ∧ rest.all Char.isDigit then
        some (-(Int.ofNat (rest.foldl (fun a c => 10 * a + (c.toNat - '0'.toNat)) 0)))
      else none
  | _ =>
      if cs.all Char.isDigit then
        some (Int.ofNat (cs.foldl (fun a c => 10 * a + (c.toNat - '0'.toNat)) 0))
      else none

/-- Python list indexing `xs[i]`: a non-negative index must be `< len(xs)`;
a negative index `i` selects position `len(xs) + i` when that is still in
range; everything else raises `IndexError` (modelled as `none`). -/
def pyIndex {α : Type} (xs : List α) (i : Int) : Option α :=
  if 0 ≤ i then xs.get? i.toNat
  else if 0 ≤ (xs.length : Int) + i then xs.get? ((xs.length : Int) + i).toNat
  else none

/-- The `'{}:{}'.format(idx, search_result.title)` lines produced by the
`enumerate(results)` loop, in order. -/
def candidateListing (xs : List SearchResult) : List String :=
  xs.enum.map (fun p => toString p.1 ++ ":" ++ p.2.title)

/-- The sequence of pipeline calls `main()` issues once `found_match` is a
real result: `get_soup_by_url(found_match.url)`,
`parse_series_title_and_type(found_match)`,
`parse_seasons_and_episodes_from_soup(soup, miniseries=is_miniseris)` with
`is_miniseris = True if found_match.query_type == 'miniseries' else False`,
and `write_to_file_system()`. -/
def pipelineFor (m : SearchResult) : List PipelineCall :=
  [PipelineCall.get_soup_by_url m.url,
   PipelineCall.parse_series_title_and_type m,
   PipelineCall.parse_seasons_and_episodes_from_soup
     (if m.query_type == "miniseries" then true else false),
   PipelineCall.write_to_file_system]

/-- The resolution body of `main()` after `search_by_name` has returned
`results`, parameterised by the external `check_for_match_in_result`
(`check`) and by the text on standard input (`stdin`).

Mirrors the source line by line: `found_match = check(results)`; if falsy,
log the enumerated candidates, read `int(input(...))`, index
`results[user_choice]` (a `SearchResult` object is truthy, so the
`if results[user_choice]:` test passes whenever indexing succeeds), and
re-check the singleton.  Afterwards the pipeline runs unconditionally on
`found_match`; when the re-check returned `None` this dies with
`AttributeError` at `found_match.url` before any pipeline call is made. -/
def runMain (check : List SearchResult → Option SearchResult)
    (results : List SearchResult) (stdin : String) : RunResult :=
  match check results with
  | some m =>
      { candidateLines := [], promptCount := 0, found := some m,
        pipelineCalls := pipelineFor m, err := none }
  | none =>
      match pyInt stdin with
      | none =>
          { candidateLines := candidateListing results, promptCount := 1,
            found := none, pipelineCalls := [],
            err := some RunError.valueError }
      | some choice =>
          match pyIndex results choice with
          | none =>
              { candidateLines := candidateListing results, promptCount := 1,
                found := none, pipelineCalls := [],
                err := some RunError.indexError }
          | some chosen =>
              match check [chosen] with
              | some m =>
                  { candidateLines := candidateListing results,
                    promptCount := 1, found := some m,
                    pipelineCalls := pipelineFor m, err := none }
              | none =>
                  { candidateLines := candidateListing results,
                    promptCount := 1, found := none, pipelineCalls := [],
                    err := some RunError.attributeError }

/-- Outcome of `main()` including the `if args.series_name:` guard. -/
structure MainResult where
  /-- `some name` iff `search_by_name(name)` was actually called. -/
  searchedName : Option String
  /-- The resolution run, when the guard let it happen. -/
  run : Option RunResult
deriving Repr, DecidableEq

/-- `main()` after argument parsing: the whole resolution-and-pipeline block
is wrapped in `if args.series_name:`, and a Python string is falsy exactly
when empty, so an empty `--name` skips everything (search included). -/
def mainModel (search : String → List SearchResult)
    (check : List SearchResult → Option SearchResult)
    (series_name : String) (stdin : String) : MainResult :=
  if series_name = "" then { searchedName := none, run := none }
  else { searchedName := some series_name,
         run := some (runMain check (search series_name) stdin) }

/-- Observable effect of `setup_logging(level, config_file)`. -/
inductive LogSetup
  | systemExit (code : Nat) (diagnostic : String)
  | dictConfig (configuration : String)
  | coloredlogs_install (level : String)
deriving Repr, DecidableEq

/-- Python `str.upper()` (the log levels involved are ASCII, for which
`Char.toUpper` agrees with Python case mapping). -/
def pyUpper (s : String) : String := String.mk (s.toList.map Char.toUpper)

/-- `setup_logging`: with a truthy (non-empty) `config_file` it reads the
file and `json.loads` the contents — on `ValueError` it prints the
diagnostic and raises `SystemExit(1)`, otherwise it applies
`logging.config.dictConfig`; with no config file it runs
`coloredlogs.install(level=level.upper())`.  `json_valid` abstracts whether
`json.loads` succeeds on the contents; `contents` is what `open` read. -/
def setup_logging (json_valid : String → Bool)
    (level config_file contents : String) : LogSetup :=
  if config_file ≠ "" then
    if json_valid contents then LogSetup.dictConfig contents
    else LogSetup.systemExit 1
      ("File \"" ++ config_file ++ "\" is not valid json, cannot continue.")
  else LogSetup.coloredlogs_install (pyUpper level)

/-! ## Sample data used to instantiate the theorems on concrete runs -/

/-- A sample regular-series search result. -/
def darkSeries : SearchResult :=
  { title := "Dark", url := "https://w/Dark", query_type := "series" }

/-- A second sample search result, disambiguating the first. -/
def darkTv : SearchResult :=
  { title := "Dark (2017 TV series)", url := "https://w/Dark_2017",
    query_type := "series" }

/-- A sample miniseries search result. -/
def chernobyl : SearchResult :=
  { title := "Chernobyl", url := "https://w/Chernobyl",
    query_type := "miniseries" }

/-- A concrete `check_for_match_in_result` instance: it confirms exactly the
singleton result sets and is inconclusive on every other one. -/
def singletonCheck : List SearchResult → Option SearchResult :=
  fun l => match l with | [x] => some x | _ => none

/-! ## Helper lemmas -/

/-- Python indexing into an empty list always raises `IndexError`. -/
theorem pyIndex_nil {α : Type} (c : Int) : pyIndex ([] : List α) c = none := by
  unfold pyIndex
  by_cases h : 0 ≤ c
  · rw [if_pos h]
    exact List.get?_nil
  · rw [if_neg h, if_neg (by simp; omega)]

/-! ## Claim theorems -/

/-- C3: whenever `check_for_match_in_result` yields a match on the full
search results, `main` takes the automatic path: it returns exactly that
match, logs no candidate listing, never calls `input`, and hands the match
to the pipeline. -/
theorem automatic_path_no_interaction
    (check : List SearchResult → Option SearchResult)
    (xs : List SearchResult) (stdin : String) (m : SearchResult)
    (hm : check xs = some m) :
    runMain check xs stdin =
      { candidateLines := [], promptCount := 0, found := some m,
        pipelineCalls := pipelineFor m, err := none } := by
  unfold runMain
  rw [hm]

/-- Witness for C3 at a concrete run. -/
theorem automatic_path_no_interaction_witness :
    runMain singletonCheck [chernobyl] "" =
      { candidateLines := [], promptCount := 0, found := some chernobyl,
        pipelineCalls := pipelineFor chernobyl, err := none } :=
  automatic_path_no_interaction singletonCheck [chernobyl] "" chernobyl rfl

/-- C1 (actual code behaviour at the claim's scenario): on an empty result
set with an inconclusive match check there is no `NoResultsError` guard —
`main` still calls `input` once (the prompt IS issued) and then dies with
an uncaught `ValueError` (non-integer input) or `IndexError` (indexing the
empty list); no match is ever produced. -/
theorem empty_resultset_prompts_then_crashes
    (check : List SearchResult → Option SearchResult) (stdin : String)
    (hnone : check [] = none) :
    (runMain check [] stdin).promptCount = 1 ∧
    (runMain check [] stdin).found = none ∧
    ((runMain check [] stdin).err = some RunError.valueError ∨
     (runMain check [] stdin).err = some RunError.indexError) := by
  cases hp : pyInt stdin with
  | none => simp [runMain, hnone, hp]
  | some c => simp [runMain, hnone, hp, pyIndex_nil c]

/-- Witness for C1 at a concrete run. -/
theorem empty_resultset_prompts_then_crashes_witness :
    (runMain (fun _ => none) [] "0").promptCount = 1 ∧
    (runMain (fun _ => none) [] "0").found = none ∧
    ((runMain (fun _ => none) [] "0").err = some RunError.valueError ∨
     (runMain (fun _ => none) [] "0").err = some RunError.indexError) :=
  empty_resultset_prompts_then_crashes (fun _ => none) "0" rfl

/-- C5 (actual code behaviour): an out-of-range non-negative selection —
e.g. the list length itself — is not bounds-checked: `main` dies with an
uncaught `IndexError` from `results[user_choice]`, not with any
`InvalidSelectionError`, and nothing reaches the pipeline. -/
theorem out_of_range_selection_indexerror
    (check : List SearchResult → Option SearchResult)
    (xs : List SearchResult) (stdin : String) (c : Int)
    (hnone : check xs = none) (hp : pyInt stdin = some c)
    (hge : (xs.length : Int) ≤ c) :
    runMain check xs stdin =
      { candidateLines := candidateListing xs, promptCount := 1,
        found := none, pipelineCalls := [],
        err := some RunError.indexError } := by
  have hidx : pyIndex xs c = none := by
    unfold pyIndex
    rw [if_pos (le_trans (Int.ofNat_nonneg _) hge)]
    exact List.get?_eq_none.mpr (by omega)
  simp only [runMain, hnone, hp, hidx]

/-- Witness for C5 at the concrete failing input `stdin = "2"` on a
two-element result set. -/
theorem out_of_range_selection_indexerror_witness :
    runMain singletonCheck [darkSeries, darkTv] "2" =
      { candidateLines := candidateListing [darkSeries, darkTv],
        promptCount := 1, found := none, pipelineCalls := [],
        err := some RunError.indexError } :=
  out_of_range_selection_indexerror singletonCheck [darkSeries, darkTv]
    "2" 2 rfl (by decide) (by decide)

/-- C6 (actual code behaviour): input that does not parse as an integer
makes `int(input(...))` raise an uncaught `ValueError` — there is no
`NonIntegerSelectionError` handling — and nothing reaches the pipeline. -/
theorem non_integer_selection_valueerror
    (check : List SearchResult → Option SearchResult)
    (xs : List SearchResult) (stdin : String)
    (hnone : check xs = none) (hp : pyInt stdin = none) :
    runMain check xs stdin =
      { candidateLines := candidateListing xs, promptCount := 1,
        found := none, pipelineCalls := [],
        err := some RunError.valueError } := by
  simp only [runMain, hnone, hp]

/-- Witness for C6 at the concrete failing input `stdin = "abc"`. -/
theorem non_integer_selection_valueerror_witness :
    runMain singletonCheck [darkSeries, darkTv] "abc" =
      { candidateLines := candidateListing [darkSeries, darkTv],
        promptCount := 1, found := none, pipelineCalls := [],
        err := some RunError.valueError } :=
  non_integer_selection_valueerror singletonCheck [darkSeries, darkTv]
    "abc" rfl (by decide)

/-- C4 (actual code behaviour): when the operator's chosen candidate fails
the singleton re-check, `found_match` stays `None`; the candidate is never
silently accepted and nothing is handed to the parse/persist pipeline, but
the failure surfaces as an uncaught `AttributeError` at `found_match.url`,
not as any `UnconfirmedSelectionError`. -/
theorem failed_recheck_attributeerror
    (check : List SearchResult → Option SearchResult)
    (xs : List SearchResult) (stdin : String) (c : Int)
    (chosen : SearchResult)
    (hnone : check xs = none) (hp : pyInt stdin = some c)
    (hidx : pyIndex xs c = some chosen) (hrc : check [chosen] = none) :
    runMain check xs stdin =
      { candidateLines := candidateListing xs, promptCount := 1,
        found := none, pipelineCalls := [],
        err := some RunError.attributeError } := by
  simp only [runMain, hnone, hp, hidx, hrc]

/-- Witness for C4: a check that never confirms anything, selection `0`. -/
theorem failed_recheck_attributeerror_witness :
    runMain (fun _ => none) [darkSeries, darkTv] "0" =
      { candidateLines := candidateListing [darkSeries, darkTv],
        promptCount := 1, found := none, pipelineCalls := [],
        err := some RunError.attributeError } :=
  failed_recheck_attributeerror (fun _ => none) [darkSeries, darkTv]
    "0" 0 darkSeries rfl (by decide) (by decide) rfl

/-- C2: with an inconclusive aggregate check on more than one result,
`main` prompts exactly once after logging one `idx:title` line per
candidate — 0-based indices in result order — and a valid selection `i`
whose candidate passes the singleton re-check makes the run succeed with
exactly that candidate. -/
theorem ambiguous_prompt_and_valid_selection
    (check : List SearchResult → Option SearchResult)
    (xs : List SearchResult) (stdin : String) (i : Nat)
    (hlen : 1 < xs.length) (hnone : check xs = none)
    (hi : i < xs.length) (hp : pyInt stdin = some (i : Int))
    (hrc : check [xs.get ⟨i, hi⟩] = some (xs.get ⟨i, hi⟩)) :
    (runMain check xs stdin).promptCount = 1 ∧
    (runMain check xs stdin).candidateLines.length = xs.length ∧
    (∀ j (hj : j < xs.length),
      (runMain check xs stdin).candidateLines.get? j =
        some (toString j ++ ":" ++ (xs.get ⟨j, hj⟩).title)) ∧
    (runMain check xs stdin).found = some (xs.get ⟨i, hi⟩) ∧
    (runMain check xs stdin).err = none := by
  have hidx : pyIndex xs (i : Int) = some (xs.get ⟨i, hi⟩) := by
    unfold pyIndex
    rw [if_pos (Int.ofNat_nonneg i)]
    simp [List.get?_eq_get hi]
  simp only [runMain, hnone, hp, hidx, hrc]
  refine ⟨trivial, ?_, ?_, trivial, trivial⟩
  · simp [candidateListing]
  · intro j hj
    simp only [candidateListing, List.get?_map, List.get?_enum]
    simp [List.getElem?_eq_getElem hj]

/-- Witness for C2: two candidates, operator picks index 1. -/
theorem ambiguous_prompt_and_valid_selection_witness :
    (runMain singletonCheck [darkSeries, darkTv] "1").promptCount = 1 ∧
    (runMain singletonCheck [darkSeries, darkTv] "1").candidateLines =
      ["0:Dark", "1:Dark (2017 TV series)"] ∧
    (runMain singletonCheck [darkSeries, darkTv] "1").found = some darkTv := by
  have h := ambiguous_prompt_and_valid_selection singletonCheck
    [darkSeries, darkTv] "1" 1 (by decide) rfl (by decide) (by decide) rfl
  exact ⟨h.1, by decide, h.2.2.2.1⟩

/-- The season/episode parse call in `pipelineFor m` carries `true` exactly
when `m.query_type` is `"miniseries"`. -/
theorem parse_seasons_mem_pipelineFor (m : SearchResult) (b : Bool) :
    (PipelineCall.parse_seasons_and_episodes_from_soup b ∈ pipelineFor m ↔
      (b = true ↔ m.query_type = "miniseries")) := by
  by_cases hq : m.query_type = "miniseries" <;> cases b <;>
    simp [pipelineFor, hq]

/-- If a run produced a match, its pipeline calls are `pipelineFor` it. -/
theorem found_pipelineCalls
    (check : List SearchResult → Option SearchResult)
    (xs : List SearchResult) (stdin : String) (m : SearchResult)
    (hm : (runMain check xs stdin).found = some m) :
    (runMain check xs stdin).pipelineCalls = pipelineFor m := by
  unfold runMain at hm ⊢
  cases hc : check xs with
  | some a => simp_all
  | none =>
      cases hp : pyInt stdin with
      | none => simp_all
      | some c =>
          cases hi : pyIndex xs c with
          | none => simp_all
          | some chosen =>
              cases hr : check [chosen] with
              | none => simp_all
              | some a => simp_all

/-- C7: whenever a confirmed match reaches the pipeline, the
season/episode parsing step is invoked with `miniseries = true` exactly
when the match's `query_type` equals `"miniseries"` (and with `false`
otherwise). -/
theorem miniseries_flag_iff_query_type
    (check : List SearchResult → Option SearchResult)
    (xs : List SearchResult) (stdin : String) (m : SearchResult) (b : Bool)
    (hm : (runMain check xs stdin).found = some m) :
    (PipelineCall.parse_seasons_and_episodes_from_soup b ∈
        (runMain check xs stdin).pipelineCalls ↔
      (b = true ↔ m.query_type = "miniseries")) := by
  rw [found_pipelineCalls check xs stdin m hm]
  exact parse_seasons_mem_pipelineFor m b

/-- Witness for C7: the Chernobyl miniseries run carries `true`. -/
theorem miniseries_flag_iff_query_type_witness :
    (PipelineCall.parse_seasons_and_episodes_from_soup true ∈
        (runMain singletonCheck [chernobyl] "").pipelineCalls ↔
      (true = true ↔ chernobyl.query_type = "miniseries")) :=
  miniseries_flag_iff_query_type singletonCheck [chernobyl] "" chernobyl
    true rfl

/-- C8: a supplied (non-empty) log-config path whose contents fail JSON
parsing makes `setup_logging` print the diagnostic and raise
`SystemExit(1)`; with no log-config supplied no exit occurs and the
colorized console handler is installed at the upper-cased level. -/
theorem log_config_exit_behaviour
    (json_valid : String → Bool) (level config_file contents : String) :
    (config_file ≠ "" → json_valid contents = false →
      setup_logging json_valid level config_file contents =
        LogSetup.systemExit 1
          ("File \"" ++ config_file ++
            "\" is not valid json, cannot continue.")) ∧
    (config_file = "" →
      setup_logging json_valid level config_file contents =
        LogSetup.coloredlogs_install (pyUpper level)) := by
  constructor
  · intro hne hbad
    unfold setup_logging
    rw [if_pos hne, hbad]
    simp
  · intro he
    unfold setup_logging
    rw [he]
    simp

/-- Witness for C8: an invalid config file exits with code 1; an absent one
installs colored logs at level `"INFO"`. -/
theorem log_config_exit_behaviour_witness :
    setup_logging (fun _ => false) "info" "logging.json" "not json" =
      LogSetup.systemExit 1
        "File \"logging.json\" is not valid json, cannot continue." ∧
    setup_logging (fun _ => false) "info" "" "not json" =
      LogSetup.coloredlogs_install "INFO" := by
  constructor
  · exact (log_config_exit_behaviour (fun _ => false) "info" "logging.json"
      "not json").1 (by decide) rfl
  · exact (log_config_exit_behaviour (fun _ => false) "info" ""
      "not json").2 rfl

/-- C9 counterexample: with the empty series name the
`if args.series_name:` guard is falsy, so `search_by_name` is never called
and no result set is processed — contradicting the claim that search is
issued for every supplied name, empty text included. -/
theorem empty_name_skips_search_counterexample :
    (mainModel (fun _ => [darkSeries]) (fun _ => none) "" "0").searchedName
      = none ∧
    (mainModel (fun _ => [darkSeries]) (fun _ => none) "" "0").searchedName
      ≠ some "" ∧
    (mainModel (fun _ => [darkSeries]) (fun _ => none) "" "0").run = none := by
  refine ⟨rfl, ?_, rfl⟩
  intro h
  simp [mainModel] at h

/-- C9 amended: for every NON-empty series name — whitespace-only text
included — `main` calls `search_by_name(name)` and proceeds with the
returned result set; only the empty name is short-circuited by the
`if args.series_name:` guard before any search is issued. -/
theorem nonempty_name_searches
    (search : String → List SearchResult)
    (check : List SearchResult → Option SearchResult)
    (name stdin : String) (hne : name ≠ "") :
    mainModel search check name stdin =
      { searchedName := some name,
        run := some (runMain check (search name) stdin) } := by
  unfold mainModel
  rw [if_neg hne]

/-- Witness for the amended C9 at the whitespace-only name `" "`. -/
theorem nonempty_name_searches_witness :
    mainModel (fun _ => [chernobyl]) singletonCheck " " "" =
      { searchedName := some " ",
        run := some (runMain singletonCheck [chernobyl] "") } :=
  nonempty_name_searches (fun _ => [chernobyl]) singletonCheck " " ""
    (by decide)

/-- C10: a negative selection `c` with `-N ≤ c ≤ -1` is accepted by
Python's list indexing as the candidate at position `N + c`, so the lower
bound `0 ≤ choice` is not enforced at the interactive interface: the run
raises no error at the selection step and, when the re-check confirms that
candidate, succeeds with it. -/
theorem negative_selection_end_relative
    (check : List SearchResult → Option SearchResult)
    (xs : List SearchResult) (stdin : String) (c : Int)
    (hnone : check xs = none) (hp : pyInt stdin = some c)
    (hlo : -(xs.length : Int) ≤ c) (hhi : c ≤ -1)
    (hidx : ((xs.length : Int) + c).toNat < xs.length)
    (hrc : check [xs.get ⟨((xs.length : Int) + c).toNat, hidx⟩] =
      some (xs.get ⟨((xs.length : Int) + c).toNat, hidx⟩)) :
    pyIndex xs c =
      some (xs.get ⟨((xs.length : Int) + c).toNat, hidx⟩) ∧
    (runMain check xs stdin).promptCount = 1 ∧
    (runMain check xs stdin).err = none ∧
    (runMain check xs stdin).found =
      some (xs.get ⟨((xs.length : Int) + c).toNat, hidx⟩) := by
  have hpy : pyIndex xs c =
      some (xs.get ⟨((xs.length : Int) + c).toNat, hidx⟩) := by
    unfold pyIndex
    rw [if_neg (by omega), if_pos (by omega)]
    exact List.get?_eq_get hidx
  refine ⟨hpy, ?_, ?_, ?_⟩ <;> simp only [runMain, hnone, hp, hpy, hrc]

/-- Witness for C10: selection `-1` on a two-element result set picks the
last candidate. -/
theorem negative_selection_end_relative_witness :
    (runMain singletonCheck [darkSeries, darkTv] "-1").found =
      some darkTv ∧
    (runMain singletonCheck [darkSeries, darkTv] "-1").err = none := by
  have h := negative_selection_end_relative singletonCheck
    [darkSeries, darkTv] "-1" (-1) rfl (by decide) (by decide) (by decide)
    (by decide) rfl
  exact ⟨h.2.2.2, h.2.2.1⟩
